import Mathlib

/-!
# Verification of the `conditions` expression evaluator

Shallow embedding of the tree-walking evaluator of the `conditions` package
(`eval.go`): `Evaluate`, `evaluateSubtree`, `applyOperator` and the individual
`applyXXX` operator functions, together with the `getXXX` type-assertion
helpers.

Modelling conventions:
* Go `float64` values are modelled as `ℚ`.  The behaviours under scrutiny
  (comparison boundaries, the `time.Duration(days)` truncation, trial-order
  dispatch) are exact on rationals; float rounding/NaN is outside scope.
* Go `time.Time` is modelled as an `Int` count of nanoseconds since the epoch,
  and `time.Duration` as an `Int` count of nanoseconds.  `time.Since(dt)` is
  `now - dt` saturated at the `Duration` bounds (`satDur`), the documented
  behaviour of `time.Time.Sub`, where `now`, the wall clock at the moment of
  the call, is an explicit parameter threaded through the evaluator.
  `Duration` multiplication is `int64` arithmetic and wraps on overflow,
  modelled by `wrap64`.
* A Go function returning `(*T, error)` is modelled as `GoRes` carrying an
  `Option` value (a nil pointer is `none`) and an `Option Err`; a run-time
  panic (nil dereference, failed interface conversion) is the `panicked`
  constructor, which propagates through every caller like a Go panic.
* `regexp.MatchString` (standard library) is abstracted as an arbitrary
  function parameter `ms : MatchFn`.
* `strings.Contains` (standard library) is modelled by `goStringContains`.
-/

/-- Modelled from the spec: the dynamically-typed runtime values a record can
hold (the spec's "dynamically-typed values"; the concrete Go type is
`interface{}`, declared outside the evaluator file).  Each constructor is one
`reflect.Kind` shape that `evaluateSubtree` discriminates on: `time.Time`
values, the integer and floating kinds, strings, booleans, `[]string`, a slice
whose elements are not strings (e.g. `[]int`), and a catch-all for kinds the
classification switch does not mention (e.g. `int8`). -/
inductive RValue where
  | timeV (t : Int)
  | intV (n : Int)
  | int32V (n : Int)
  | int64V (n : Int)
  | float32V (q : ℚ)
  | float64V (q : ℚ)
  | stringV (s : String)
  | boolV (b : Bool)
  | sliceStringV (xs : List String)
  | sliceIntV (xs : List Int)
  | otherV
  deriving DecidableEq

/-- Modelled from the spec: the shapes of the `args interface{}` record
argument of `Evaluate`.  `mapA` is a `map[string]interface{}`; `mapOtherA` is a
map of any other Go map type (its `reflect.Kind` is `Map` but the type
assertion to `map[string]interface{}` fails); `structA` is a struct with named
(exported) fields; `stringA`, `numberA` and `otherA` are non-map non-struct
kinds; `nilA` is a nil interface value. -/
inductive Args where
  | mapA (m : List (String × RValue))
  | mapOtherA
  | structA (fields : List (String × RValue))
  | stringA (s : String)
  | numberA (q : ℚ)
  | otherA
  | nilA
  deriving DecidableEq

/-- Modelled from the spec: the operator tokens dispatched by `applyOperator`
(the `Token` type itself is declared in the scanner file, outside the
evaluator).  Only the sixteen binary operators reachable from a parsed
`BinaryExpr` are modelled; for any other token `applyOperator` would return an
"Unsupported operator" error, unreachable on this closed set. -/
inductive Token where
  | AND | OR | XOR | NAND
  | EQ | NEQ | GT | GTE | LT | LTE
  | IN | NOTIN | CONTAINS | BEFORE | EREG | NEREG
  deriving DecidableEq

/-- Modelled from the spec: the AST node variants (`Expr` is declared in the
AST file, outside the evaluator): `BinaryExpr`, `ParenExpr`, `VarRef` and the
literal leaves `BooleanLiteral`, `NumberLiteral` (float64, modelled as `ℚ`),
`StringLiteral`, `TimeLiteral`, `DurationLiteral`, `SliceStringLiteral`,
`SliceNumberLiteral`. -/
inductive Expr where
  | BinaryExpr (op : Token) (lhs rhs : Expr)
  | ParenExpr (inner : Expr)
  | VarRef (name : String)
  | BooleanLiteral (b : Bool)
  | NumberLiteral (q : ℚ)
  | StringLiteral (s : String)
  | TimeLiteral (t : Int)
  | DurationLiteral (d : Int)
  | SliceStringLiteral (xs : List String)
  | SliceNumberLiteral (xs : List ℚ)
  deriving DecidableEq

/-- The error values produced by the evaluator, one constructor per
`fmt.Errorf` site, carrying the interpolated data. -/
inductive Err where
  | providedExpressionNil
  | unexpectedRootResult (result : Option Expr)
  | argsConvertToMapNotOk (args : Args)
  | argumentNotFound (name : String)
  | argumentNotFoundInArgs (name : String) (args : Args)
  | argsNotMapOrStruct (args : Args)
  | unsupportedArgumentType (name : String)
  | literalNotBoolean (e : Expr)
  | literalNotTime (e : Expr)
  | literalNotTimeDuration (e : Expr)
  | literalNotString (e : Expr)
  | literalNotSliceNumber (e : Expr)
  | literalNotSliceString (e : Expr)
  | literalNotNumber (e : Expr)
  | cannotCompareStringWithNonString
  | cannotCompareNumberWithNonNumber
  | cannotCompareBooleanWithNonBoolean
  | cannotEvaluateUnknownType (e : Expr)
  | regexCompile (msg : String)
  deriving DecidableEq

/-- Go run-time panics the evaluator can trigger: dereferencing a nil
`*BooleanLiteral`, a failed `val.([]string)` interface conversion, and calling
`Kind()` on the nil `reflect.Type` of a nil `args` interface. -/
inductive PanicMsg where
  | nilDereference
  | interfaceConversion
  | nilTypeKind
  deriving DecidableEq

/-- Outcome of a Go function returning `(*T, error)`: an ordinary return
carrying the (possibly nil) pointer `val` and the (possibly nil) `err`, or a
run-time panic unwinding the stack. -/
inductive GoRes (α : Type) where
  | ret (val : Option α) (err : Option Err)
  | panicked (msg : PanicMsg)
  deriving DecidableEq

/-- Outcome of `Evaluate`, which returns a plain `(bool, error)` pair. -/
inductive EvalOut where
  | ret (b : Bool) (err : Option Err)
  | panicked (msg : PanicMsg)
  deriving DecidableEq

/-- The behaviour of `regexp.MatchString pattern subject`, abstracted: the
match flag and the (pattern-compilation) error. -/
abbrev MatchFn := String → String → Bool × Option Err

/-- `var falseExpr = &BooleanLiteral{Val: false}` — the module-level constant
returned alongside errors. -/
def falseExpr : Expr := .BooleanLiteral false

/-- `getBoolean` performs type assertion and returns boolean value or error. -/
def getBoolean (e : Expr) : Except Err Bool :=
  match e with
  | .BooleanLiteral b => .ok b
  | _ => .error (.literalNotBoolean e)

/-- `getTime` performs type assertion and returns the time value or error. -/
def getTime (e : Expr) : Except Err Int :=
  match e with
  | .TimeLiteral t => .ok t
  | _ => .error (.literalNotTime e)

/-- `getTimeDuration` performs type assertion and returns the duration or
error (dead code in the evaluator, kept for completeness). -/
def getTimeDuration (e : Expr) : Except Err Int :=
  match e with
  | .DurationLiteral d => .ok d
  | _ => .error (.literalNotTimeDuration e)

/-- `getString` performs type assertion and returns string value or error. -/
def getString (e : Expr) : Except Err String :=
  match e with
  | .StringLiteral s => .ok s
  | _ => .error (.literalNotString e)

/-- `getSliceNumber` performs type assertion and returns the `[]float64` value
or error. -/
def getSliceNumber (e : Expr) : Except Err (List ℚ) :=
  match e with
  | .SliceNumberLiteral xs => .ok xs
  | _ => .error (.literalNotSliceNumber e)

/-- `getSliceString` performs type assertion and returns the `[]string` value
or error. -/
def getSliceString (e : Expr) : Except Err (List String) :=
  match e with
  | .SliceStringLiteral xs => .ok xs
  | _ => .error (.literalNotSliceString e)

/-- `getNumber` performs type assertion and returns the float64 value or
error. -/
def getNumber (e : Expr) : Except Err ℚ :=
  match e with
  | .NumberLiteral q => .ok q
  | _ => .error (.literalNotNumber e)

/-- Go's `int64(f)` conversion of a float64 to an integer truncates toward
zero; on a rational `q` that is `q.num.tdiv q.den`.  (When the truncated
value is not representable in int64 the Go conversion is
implementation-dependent; theorems relying on the conversion carry an
in-range hypothesis.) -/
def ratTrunc (q : ℚ) : Int := q.num.tdiv (q.den : Int)

/-- Two's-complement wrap of an unbounded integer into the signed 64-bit
range: the `int64` value with the same low 64 bits.  Go's `time.Duration`
multiplication is `int64` arithmetic and wraps on overflow. -/
def wrap64 (n : Int) : Int := (n + 2 ^ 63) % 2 ^ 64 - 2 ^ 63

/-- Go's `time.Time.Sub` (and hence `time.Since`) is documented to return the
minimum/maximum `Duration` when the difference overflows — saturation, not
wrap. -/
def satDur (n : Int) : Int := max (-(2 ^ 63)) (min (2 ^ 63 - 1) n)

/-- Go's `strings.Contains s sub` (standard library): `sub` occurs as a
substring of `s`. -/
def goStringContains (s sub : String) : Bool :=
  if sub.isEmpty then true else (s.splitOn sub).length ≥ 2

/-- `applyEREG` applies the EREG operation to the l/r operands; the regex
engine is the abstracted `ms`.  The subject is the left operand, the pattern
the right; note the result of `regexp.MatchString` is returned together with
its error. -/
def applyEREG (ms : MatchFn) (l r : Expr) : GoRes Bool :=
  match getString l with
  | .error m => .ret none (some m)
  | .ok a =>
    match getString r with
    | .error m => .ret none (some m)
    | .ok b =>
      let mr := ms b a
      .ret (some mr.1) mr.2

/-- `applyNEREG`: calls `applyEREG` and negates `result.Val` *before* checking
the error; when `applyEREG` returned a nil result the field write is a nil
dereference panic. -/
def applyNEREG (ms : MatchFn) (l r : Expr) : GoRes Bool :=
  match applyEREG ms l r with
  | .ret (some v) err => .ret (some (!v)) err
  | .ret none _ => .panicked .nilDereference
  | .panicked m => .panicked m

/-- `applyIN` applies the IN operation to the l/r operands: a linear scan that
sets the found flag and keeps scanning. -/
def applyIN (l r : Expr) : GoRes Bool :=
  match l with
  | .StringLiteral _ =>
    match getString l with
    | .error m => .ret none (some m)
    | .ok a =>
      match getSliceString r with
      | .error m => .ret none (some m)
      | .ok b =>
        .ret (some (b.foldl (fun found e => if a == e then true else found) false)) none
  | .NumberLiteral _ =>
    match getNumber l with
    | .error m => .ret none (some m)
    | .ok a =>
      match getSliceNumber r with
      | .error m => .ret none (some m)
      | .ok b =>
        .ret (some (b.foldl (fun found e => if a == e then true else found) false)) none
  | _ => .ret none (some (.cannotEvaluateUnknownType l))

/-- `applyNOTIN`: calls `applyIN` and negates `result.Val` *before* checking
the error; when `applyIN` returned a nil result the field write is a nil
dereference panic. -/
def applyNOTIN (l r : Expr) : GoRes Bool :=
  match applyIN l r with
  | .ret (some v) err => .ret (some (!v)) err
  | .ret none _ => .panicked .nilDereference
  | .panicked m => .panicked m

/-- `applyBefore`: left operand must be a time literal; a numeric right
operand is a day count converted by `time.Duration(days) * time.Second *
86400`: the float64 → Duration conversion truncates toward zero (and is
implementation-dependent when the truncated value exceeds int64 range, so it
is left unwrapped here and theorems carry an in-range hypothesis), and each
of the two `Duration` multiplications wraps in int64.  The result is
`time.Since(dt) > dur` with the saturating `Since`.  A time left operand with
a non-numeric right operand falls through to
`return &BooleanLiteral{false}, nil`. -/
def applyBefore (l r : Expr) (now : Int) : GoRes Bool :=
  match l with
  | .TimeLiteral _ =>
    (match getTime l with
    | .error m => .ret none (some m)
    | .ok dt =>
      match r with
      | .NumberLiteral _ =>
        (match getNumber r with
        | .error m => .ret none (some m)
        | .ok days =>
          let dur : Int := wrap64 (wrap64 (ratTrunc days * 1000000000) * 86400)
          if satDur (now - dt) > dur then .ret (some true) none else .ret (some false) none)
      | _ => .ret (some false) none)
  | _ => .ret none (some (.cannotEvaluateUnknownType l))

/-- `applyContains` applies CONTAINS to the l/r operands, dispatching on the
type of the *right* operand: for a string right operand a string left is a
substring test and any other left must be a `[]string` membership scan; for a
numeric right operand the left must be a `[]float64` membership scan. -/
def applyContains (l r : Expr) : GoRes Bool :=
  match r with
  | .StringLiteral _ =>
    (match getString r with
    | .error m => .ret none (some m)
    | .ok a =>
      match l with
      | .StringLiteral _ =>
        (match getString l with
        | .error m => .ret none (some m)
        | .ok bb => .ret (some (goStringContains bb a)) none)
      | _ =>
        match getSliceString l with
        | .error m => .ret none (some m)
        | .ok b =>
          .ret (some (b.foldl (fun inb e => if a == e then true else inb) false)) none)
  | .NumberLiteral _ =>
    (match getNumber r with
    | .error m => .ret none (some m)
    | .ok a =>
      match getSliceNumber l with
      | .error m => .ret none (some m)
      | .ok b =>
        .ret (some (b.foldl (fun inb e => if a == e then true else inb) false)) none)
  | _ => .ret none (some (.cannotEvaluateUnknownType r))

/-- `applyXOR`: both operands boolean, result their inequality. -/
def applyXOR (l r : Expr) : GoRes Bool :=
  match getBoolean l with
  | .error m => .ret none (some m)
  | .ok a =>
    match getBoolean r with
    | .error m => .ret none (some m)
    | .ok b => .ret (some (a != b)) none

/-- `applyNAND`: both operands boolean, result the negated conjunction. -/
def applyNAND (l r : Expr) : GoRes Bool :=
  match getBoolean l with
  | .error m => .ret none (some m)
  | .ok a =>
    match getBoolean r with
    | .error m => .ret none (some m)
    | .ok b => .ret (some (!(a && b))) none

/-- `applyAND`: both operands boolean, result the conjunction. -/
def applyAND (l r : Expr) : GoRes Bool :=
  match getBoolean l with
  | .error m => .ret none (some m)
  | .ok a =>
    match getBoolean r with
    | .error m => .ret none (some m)
    | .ok b => .ret (some (a && b)) none

/-- `applyOR`: both operands boolean, result the disjunction. -/
def applyOR (l r : Expr) : GoRes Bool :=
  match getBoolean l with
  | .error m => .ret none (some m)
  | .ok a =>
    match getBoolean r with
    | .error m => .ret none (some m)
    | .ok b => .ret (some (a || b)) none

/-- `applyEQ` applies `==`: trial order string, then number, then boolean on
the *left* operand; a matching left kind with a mismatching right kind is a
"Cannot compare" error (returned alongside `falseExpr`); a left operand of
none of the three kinds falls through to `return falseExpr, nil`. -/
def applyEQ (l r : Expr) : GoRes Bool :=
  match getString l with
  | .ok as_ =>
    (match getString r with
    | .error _ => .ret (some false) (some .cannotCompareStringWithNonString)
    | .ok bs => .ret (some (as_ == bs)) none)
  | .error _ =>
  match getNumber l with
  | .ok an =>
    (match getNumber r with
    | .error _ => .ret (some false) (some .cannotCompareNumberWithNonNumber)
    | .ok bn => .ret (some (an == bn)) none)
  | .error _ =>
  match getBoolean l with
  | .ok ab =>
    (match getBoolean r with
    | .error _ => .ret (some false) (some .cannotCompareBooleanWithNonBoolean)
    | .ok bb => .ret (some (ab == bb)) none)
  | .error _ => .ret (some false) none

/-- `applyNQ` applies `!=` with the same trial order and fall-through shape as
`applyEQ`. -/
def applyNQ (l r : Expr) : GoRes Bool :=
  match getString l with
  | .ok as_ =>
    (match getString r with
    | .error _ => .ret (some false) (some .cannotCompareStringWithNonString)
    | .ok bs => .ret (some (as_ != bs)) none)
  | .error _ =>
  match getNumber l with
  | .ok an =>
    (match getNumber r with
    | .error _ => .ret (some false) (some .cannotCompareNumberWithNonNumber)
    | .ok bn => .ret (some (an != bn)) none)
  | .error _ =>
  match getBoolean l with
  | .ok ab =>
    (match getBoolean r with
    | .error _ => .ret (some false) (some .cannotCompareBooleanWithNonBoolean)
    | .ok bb => .ret (some (ab != bb)) none)
  | .error _ => .ret (some false) none

/-- `applyGT`: both operands numeric, strict greater-than. -/
def applyGT (l r : Expr) : GoRes Bool :=
  match getNumber l with
  | .error m => .ret none (some m)
  | .ok a =>
    match getNumber r with
    | .error m => .ret none (some m)
    | .ok b => .ret (some (decide (a > b))) none

/-- `applyGTE`: both operands numeric, greater-or-equal. -/
def applyGTE (l r : Expr) : GoRes Bool :=
  match getNumber l with
  | .error m => .ret none (some m)
  | .ok a =>
    match getNumber r with
    | .error m => .ret none (some m)
    | .ok b => .ret (some (decide (a ≥ b))) none

/-- `applyLT`: both operands numeric, strict less-than. -/
def applyLT (l r : Expr) : GoRes Bool :=
  match getNumber l with
  | .error m => .ret none (some m)
  | .ok a =>
    match getNumber r with
    | .error m => .ret none (some m)
    | .ok b => .ret (some (decide (a < b))) none

/-- `applyLTE`: both operands numeric, less-or-equal; its error paths return
`falseExpr` (not nil) alongside the error, unlike the other comparisons. -/
def applyLTE (l r : Expr) : GoRes Bool :=
  match getNumber l with
  | .error m => .ret (some false) (some m)
  | .ok a =>
    match getNumber r with
    | .error m => .ret (some false) (some m)
    | .ok b => .ret (some (decide (a ≤ b))) none

/-- `applyOperator` dispatches the evaluation according to the operator; the
wall clock `now` is consumed only by the BEFORE branch. -/
def applyOperator (ms : MatchFn) (op : Token) (l r : Expr) (now : Int) : GoRes Bool :=
  match op with
  | .AND => applyAND l r
  | .OR => applyOR l r
  | .EQ => applyEQ l r
  | .NEQ => applyNQ l r
  | .GT => applyGT l r
  | .GTE => applyGTE l r
  | .LT => applyLT l r
  | .LTE => applyLTE l r
  | .XOR => applyXOR l r
  | .NAND => applyNAND l r
  | .IN => applyIN l r
  | .CONTAINS => applyContains l r
  | .BEFORE => applyBefore l r now
  | .NOTIN => applyNOTIN l r
  | .EREG => applyEREG ms l r
  | .NEREG => applyNEREG ms l r

/-- Classification of a resolved raw record value (lines 85–107 of the
evaluator): `time.Time` to `TimeLiteral`; `Int`/`Int32`/`Int64`/`Float32`/
`Float64` kinds widened to `NumberLiteral`; `String` to `StringLiteral`;
`Bool` to `BooleanLiteral`; a `Slice` kind is force-asserted by
`val.([]string)`, a panic when the slice is not `[]string`; any other kind is
the "Unsupported argument type" error. -/
def classifyValue (name : String) (val : RValue) : GoRes Expr :=
  match val with
  | .timeV t => .ret (some (.TimeLiteral t)) none
  | .intV n => .ret (some (.NumberLiteral (n : ℚ))) none
  | .int32V n => .ret (some (.NumberLiteral (n : ℚ))) none
  | .int64V n => .ret (some (.NumberLiteral (n : ℚ))) none
  | .float32V q => .ret (some (.NumberLiteral q)) none
  | .float64V q => .ret (some (.NumberLiteral q)) none
  | .stringV s => .ret (some (.StringLiteral s)) none
  | .boolV b => .ret (some (.BooleanLiteral b)) none
  | .sliceStringV xs => .ret (some (.SliceStringLiteral xs)) none
  | .sliceIntV _ => .panicked .interfaceConversion
  | .otherV => .ret (some falseExpr) (some (.unsupportedArgumentType name))

/-- Lift the `(*BooleanLiteral, error)` result of `applyOperator` into the
`(Expr, error)` return type of `evaluateSubtree` (a nil pointer stays nil). -/
def liftBoolRes : GoRes Bool → GoRes Expr
  | .ret v err => .ret (v.map Expr.BooleanLiteral) err
  | .panicked m => .panicked m

/-- `evaluateSubtree` performs the given expr evaluation recursively:
`ParenExpr` forwards to its inner expression; `BinaryExpr` reduces the left
then the right operand, returning `falseExpr` with the first non-nil error,
then applies the operator; `VarRef` resolves against the record (`reflect`
dispatch on the args kind, then classification of the value); every other
node (a literal) is returned unchanged with a nil error.  The nil-expression
guard at the top of the Go function is unreachable here because subtrees of
the inductive `Expr` are never nil (`Evaluate` checks the only nil the caller
can pass).  A nil `args` makes `reflect.TypeOf(args).Kind()` panic. -/
def evaluateSubtree (ms : MatchFn) (e : Expr) (args : Args) (now : Int) : GoRes Expr :=
  match e with
  | .ParenExpr inner => evaluateSubtree ms inner args now
  | .BinaryExpr op lhs rhs =>
    (match evaluateSubtree ms lhs args now with
    | .panicked m => .panicked m
    | .ret lv lerr =>
      match lerr with
      | some m => .ret (some falseExpr) (some m)
      | none =>
        match evaluateSubtree ms rhs args now with
        | .panicked m => .panicked m
        | .ret rv rerr =>
          match rerr with
          | some m => .ret (some falseExpr) (some m)
          | none =>
            match lv, rv with
            | some lvE, some rvE => liftBoolRes (applyOperator ms op lvE rvE now)
            | _, _ => .ret none none)
  | .VarRef name =>
    (match args with
    | .nilA => .panicked .nilTypeKind
    | .mapA m =>
      (match m.lookup name with
      | none => .ret (some falseExpr) (some (.argumentNotFound name))
      | some val => classifyValue name val)
    | .mapOtherA => .ret (some falseExpr) (some (.argsConvertToMapNotOk .mapOtherA))
    | .structA fields =>
      (match fields.lookup name with
      | none => .ret (some falseExpr) (some (.argumentNotFoundInArgs name (.structA fields)))
      | some val => classifyValue name val)
    | other => .ret (some falseExpr) (some (.argsNotMapOrStruct other)))
  | other => .ret (some other) none

/-- `Evaluate` takes an expr (nil modelled as `none`) and evaluates it using
the given args: a nil expression is an immediate error; a non-nil error from
`evaluateSubtree` is returned with `false`; a `*BooleanLiteral` result yields
its value; any other root result is the "Unexpected result" error. -/
def Evaluate (ms : MatchFn) (expr : Option Expr) (args : Args) (now : Int) : EvalOut :=
  match expr with
  | none => .ret false (some .providedExpressionNil)
  | some e =>
    match evaluateSubtree ms e args now with
    | .panicked m => .panicked m
    | .ret result err =>
      match err with
      | some m => .ret false (some m)
      | none =>
        match result with
        | some (.BooleanLiteral b) => .ret b none
        | other => .ret false (some (.unexpectedRootResult other))

/-- A concrete regex engine instance used for closed evaluations: never
matches, never errors.  The theorems about the evaluator quantify over the
engine; this instance only feeds witnesses and counterexamples. -/
def msNone : MatchFn := fun _ _ => (false, none)

/-- Does the expression contain a variable reference anywhere? -/
def hasVarRef : Expr → Bool
  | .BinaryExpr _ l r => hasVarRef l || hasVarRef r
  | .ParenExpr inner => hasVarRef inner
  | .VarRef _ => true
  | _ => false

/-- Does the expression avoid the BEFORE operator everywhere? -/
def noBEFORE : Expr → Bool
  | .BinaryExpr op l r => (op != .BEFORE) && noBEFORE l && noBEFORE r
  | .ParenExpr inner => noBEFORE inner
  | _ => true

/-- A record shape that is non-nil and neither a map nor a struct. -/
def badShape : Args → Bool
  | .stringA _ => true
  | .numberA _ => true
  | .otherA => true
  | _ => false

/-- Kind tests on reduced literals. -/
def isStringLit : Expr → Bool
  | .StringLiteral _ => true
  | _ => false

def isNumberLit : Expr → Bool
  | .NumberLiteral _ => true
  | _ => false

def isBooleanLit : Expr → Bool
  | .BooleanLiteral _ => true
  | _ => false

def isTimeLit : Expr → Bool
  | .TimeLiteral _ => true
  | _ => false

def isSliceStringLit : Expr → Bool
  | .SliceStringLiteral _ => true
  | _ => false

def isSliceNumberLit : Expr → Bool
  | .SliceNumberLiteral _ => true
  | _ => false

/-- Both operands of the same kind among string, number, boolean — the
"comparable operand pairs" of EQ/NEQ. -/
def comparableSNB (l r : Expr) : Bool :=
  (isStringLit l && isStringLit r) || (isNumberLit l && isNumberLit r) ||
    (isBooleanLit l && isBooleanLit r)

/-- The operand-requirement table of the spec (§4.3), as a violation test:
`true` when the pair of reduced operand kinds does not satisfy the operator's
requirement. -/
def violatesRequirement (op : Token) (l r : Expr) : Bool :=
  match op with
  | .AND | .OR | .XOR | .NAND => !(isBooleanLit l && isBooleanLit r)
  | .EQ | .NEQ => !comparableSNB l r
  | .GT | .GTE | .LT | .LTE => !(isNumberLit l && isNumberLit r)
  | .IN | .NOTIN =>
      !((isStringLit l && isSliceStringLit r) || (isNumberLit l && isSliceNumberLit r))
  | .CONTAINS =>
      !((isStringLit r && (isStringLit l || isSliceStringLit l)) ||
        (isNumberLit r && isSliceNumberLit l))
  | .BEFORE => !(isTimeLit l && isNumberLit r)
  | .EREG | .NEREG => !(isStringLit l && isStringLit r)

/-- The two requirement-violating situations in which the code silently
returns false with a nil error instead of a typed error: EQ/NEQ with a left
operand of none of the three trial kinds, and BEFORE with a time left operand
and a non-numeric right operand. -/
def silentFalseCase (op : Token) (l r : Expr) : Bool :=
  match op with
  | .EQ | .NEQ => !isStringLit l && !isNumberLit l && !isBooleanLit l
  | .BEFORE => isTimeLit l && !isNumberLit r
  | _ => false

/-- Negation of an operator outcome in the sense of the spec's symmetry laws:
the boolean value flips, the error (and a nil result, and a panic) are
preserved. -/
def negateRes : GoRes Bool → GoRes Bool
  | .ret (some b) err => .ret (some (!b)) err
  | .ret none err => .ret none err
  | .panicked m => .panicked m

/-- The BEFORE result the spec's words prescribe: elapsed wall-clock time
since the left timestamp (in nanoseconds) strictly exceeds the right operand
interpreted as a day count times 86400 seconds — with no truncation of the
day count. -/
def specBeforeHolds (t : Int) (days : ℚ) (now : Int) : Prop :=
  ((now - t : Int) : ℚ) > days * 86400 * 1000000000

/-! ## Helper lemmas -/

/-- With a non-nil record that is neither a map nor a struct, a subtree
containing a variable reference never reduces successfully: the `VarRef`
resolution errors, and the error (or a panic raised below an operator)
propagates through every `BinaryExpr`/`ParenExpr` above it. -/
theorem evalSub_badShape_noSuccess (ms : MatchFn) (args : Args) (now : Int)
    (hshape : badShape args = true) :
    ∀ (e : Expr), hasVarRef e = true → ∀ v, evaluateSubtree ms e args now ≠ .ret v none := by
  intro e
  induction e with
  | BinaryExpr op l r ihl ihr =>
    intro hv v h
    simp only [hasVarRef, Bool.or_eq_true] at hv
    rw [evaluateSubtree] at h
    rcases hL : evaluateSubtree ms l args now with ⟨lv, lerr⟩ | m
    · rw [hL] at h
      cases lerr with
      | some m => simp at h
      | none =>
        rcases hv with hv | hv
        · exact ihl hv lv hL
        · rcases hR : evaluateSubtree ms r args now with ⟨rv, rerr⟩ | m2
          · rw [hR] at h
            cases rerr with
            | some m => simp at h
            | none => exact ihr hv rv hR
          · rw [hR] at h; simp at h
    · rw [hL] at h; simp at h
  | ParenExpr inner ih =>
    intro hv v h
    rw [evaluateSubtree] at h
    exact ih hv v h
  | VarRef name =>
    intro _ v h
    cases args <;> simp_all [evaluateSubtree, badShape]
  | BooleanLiteral b => intro hv; exact Bool.noConfusion hv
  | NumberLiteral q => intro hv; exact Bool.noConfusion hv
  | StringLiteral s => intro hv; exact Bool.noConfusion hv
  | TimeLiteral t => intro hv; exact Bool.noConfusion hv
  | DurationLiteral d => intro hv; exact Bool.noConfusion hv
  | SliceStringLiteral xs => intro hv; exact Bool.noConfusion hv
  | SliceNumberLiteral xs => intro hv; exact Bool.noConfusion hv

/-- Every operator except BEFORE ignores the wall clock. -/
theorem applyOperator_clock (ms : MatchFn) (op : Token) (l r : Expr) (n1 n2 : Int)
    (h : op ≠ Token.BEFORE) :
    applyOperator ms op l r n1 = applyOperator ms op l r n2 := by
  cases op <;> first | rfl | exact absurd rfl h

/-- A subtree that contains no BEFORE operator reduces identically at any two
wall-clock instants. -/
theorem evalSub_clock (ms : MatchFn) (args : Args) :
    ∀ (e : Expr) (n1 n2 : Int), noBEFORE e = true →
      evaluateSubtree ms e args n1 = evaluateSubtree ms e args n2 := by
  intro e
  induction e with
  | BinaryExpr op l r ihl ihr =>
    intro n1 n2 h
    simp only [noBEFORE, Bool.and_eq_true, bne_iff_ne] at h
    obtain ⟨⟨hop, hl⟩, hr⟩ := h
    simp only [evaluateSubtree]
    rw [ihl n1 n2 hl, ihr n1 n2 hr]
    rcases hL : evaluateSubtree ms l args n2 with ⟨lv, lerr⟩ | m
    · cases lerr with
      | some m => rfl
      | none =>
        rcases hR : evaluateSubtree ms r args n2 with ⟨rv, rerr⟩ | m2
        · cases rerr with
          | some m => rfl
          | none =>
            cases lv with
            | none => rfl
            | some lvE =>
              cases rv with
              | none => rfl
              | some rvE => simp only [applyOperator_clock ms op lvE rvE n1 n2 hop]
        · rfl
    · rfl
  | ParenExpr inner ih =>
    intro n1 n2 h
    simp only [evaluateSubtree]
    exact ih n1 n2 h
  | VarRef name => intro n1 n2 _; rfl
  | BooleanLiteral b => intro n1 n2 _; rfl
  | NumberLiteral q => intro n1 n2 _; rfl
  | StringLiteral s => intro n1 n2 _; rfl
  | TimeLiteral t => intro n1 n2 _; rfl
  | DurationLiteral d => intro n1 n2 _; rfl
  | SliceStringLiteral xs => intro n1 n2 _; rfl
  | SliceNumberLiteral xs => intro n1 n2 _; rfl

/-! ## Claim theorems -/

/-- C1: the claim "no input causes a fatal condition" is violated by the code;
three concrete fatal panics: `NOTIN` on boolean operands dereferences the nil
result of the errored `applyIN`; `NEREG` likewise dereferences the nil result
of the errored `applyEREG`; resolving a variable with a nil record calls
`Kind()` on a nil `reflect.Type`.  Each evaluation ends in a run-time panic,
not a returned error. -/
theorem evaluate_panics_on_notin_nereg_and_nil_args :
    Evaluate msNone
        (some (.BinaryExpr .NOTIN (.BooleanLiteral true) (.BooleanLiteral true)))
        (.mapA []) 0 = .panicked .nilDereference
      ∧ Evaluate msNone
          (some (.BinaryExpr .NEREG (.BooleanLiteral true) (.StringLiteral "x")))
          (.mapA []) 0 = .panicked .nilDereference
      ∧ Evaluate msNone (some (.VarRef "x")) .nilA 0 = .panicked .nilTypeKind :=
  ⟨rfl, rfl, rfl⟩

/-- C2 counterexample: EQ applied to two time literals — a pair of reduced
operand kinds violating EQ's operand requirement — returns false with a nil
error instead of a typed error, refuting "it never silently produces a
boolean false result instead of an error". -/
theorem applyEQ_time_time_silent_false :
    applyEQ (.TimeLiteral 0) (.TimeLiteral 0) = .ret (some false) none := rfl

/-- C2 amended: applying an operator to reduced operands whose kinds violate
its requirement returns a non-nil error, except that (a) EQ/NEQ with a left
operand of none of the trial kinds, and BEFORE with a time left operand and a
non-numeric right operand, return false with a nil error, and (b) NOTIN and
NEREG panic instead of returning the inner operator's error. -/
theorem violating_operands_error_or_known_silent_or_panic
    (ms : MatchFn) (now : Int) (op : Token) (l r : Expr)
    (h : violatesRequirement op l r = true) :
    (∃ v m, applyOperator ms op l r now = .ret v (some m)) ∨
    (applyOperator ms op l r now = .ret (some false) none ∧ silentFalseCase op l r = true) ∨
    ((∃ m, applyOperator ms op l r now = .panicked m) ∧ (op = .NOTIN ∨ op = .NEREG)) := by
  cases op <;> cases l <;> cases r <;>
    first
      | exact Bool.noConfusion h
      | exact Or.inl ⟨_, _, rfl⟩
      | exact Or.inr (Or.inl ⟨rfl, rfl⟩)
      | exact Or.inr (Or.inr ⟨⟨_, rfl⟩, Or.inl rfl⟩)
      | exact Or.inr (Or.inr ⟨⟨_, rfl⟩, Or.inr rfl⟩)

/-- C2 witness: GT on a string and a number is a violating pair and the
dispatcher returns a typed error there. -/
theorem violating_operands_witness :
    violatesRequirement .GT (.StringLiteral "x") (.NumberLiteral 1) = true
      ∧ ((∃ v m, applyOperator msNone .GT (.StringLiteral "x") (.NumberLiteral 1) 0 =
            .ret v (some m)) ∨
        (applyOperator msNone .GT (.StringLiteral "x") (.NumberLiteral 1) 0 =
            .ret (some false) none
          ∧ silentFalseCase .GT (.StringLiteral "x") (.NumberLiteral 1) = true) ∨
        ((∃ m, applyOperator msNone .GT (.StringLiteral "x") (.NumberLiteral 1) 0 =
            .panicked m) ∧ (Token.GT = .NOTIN ∨ Token.GT = .NEREG))) :=
  ⟨rfl, violating_operands_error_or_known_silent_or_panic msNone 0 .GT _ _ rfl⟩

/-- C3 counterexample: the same BEFORE expression evaluated against the same
record at two different wall-clock instants yields different results, so
`Evaluate` is not a function of the AST and the record alone. -/
theorem evaluate_before_differs_across_clock :
    Evaluate msNone (some (.BinaryExpr .BEFORE (.TimeLiteral 0) (.NumberLiteral 1)))
        (.mapA []) 0
      ≠ Evaluate msNone (some (.BinaryExpr .BEFORE (.TimeLiteral 0) (.NumberLiteral 1)))
          (.mapA []) (2 * 86400 * 1000000000) := by decide

/-- C3 amended: `Evaluate` is a deterministic function of the AST, the record
and the current wall-clock time; when the AST contains no BEFORE operator the
clock is irrelevant and two evaluations of the same AST against the same
record agree. -/
theorem evaluate_clock_independent_without_before
    (ms : MatchFn) (e : Expr) (args : Args) (n1 n2 : Int) (h : noBEFORE e = true) :
    Evaluate ms (some e) args n1 = Evaluate ms (some e) args n2 := by
  simp only [Evaluate]
  rw [evalSub_clock ms args e n1 n2 h]

/-- C3 witness: a BEFORE-free conjunction evaluates identically at two
distinct instants. -/
theorem evaluate_clock_independent_witness :
    noBEFORE (.BinaryExpr .AND (.BooleanLiteral true) (.BooleanLiteral false)) = true
      ∧ Evaluate msNone
          (some (.BinaryExpr .AND (.BooleanLiteral true) (.BooleanLiteral false)))
          (.mapA []) 5
        = Evaluate msNone
            (some (.BinaryExpr .AND (.BooleanLiteral true) (.BooleanLiteral false)))
            (.mapA []) 99 :=
  ⟨rfl, evaluate_clock_independent_without_before msNone _ (.mapA []) 5 99 rfl⟩

/-- C4 counterexample: a bare boolean-literal expression evaluated against a
bare-string record succeeds with no error — the record shape is not checked,
refuting "the rejection happens regardless of which expression is
evaluated". -/
theorem evaluate_literal_ignores_record_shape :
    Evaluate msNone (some (.BooleanLiteral true)) (.stringA "") 0 = .ret true none := rfl

/-- C4 amended: with a non-nil record that is neither a map nor a struct,
`Evaluate` never returns a successful (nil-error) result when the expression
contains a variable reference; the shape check happens only at `VarRef`
resolution, so expressions without variable references never consult the
record. -/
theorem evaluate_badshape_with_varref_never_succeeds
    (ms : MatchFn) (e : Expr) (args : Args) (now : Int) (b : Bool)
    (hshape : badShape args = true) (hvar : hasVarRef e = true) :
    Evaluate ms (some e) args now ≠ .ret b none := by
  intro h
  simp only [Evaluate] at h
  rcases hS : evaluateSubtree ms e args now with ⟨v, err⟩ | m
  · rw [hS] at h
    cases err with
    | none => exact evalSub_badShape_noSuccess ms args now hshape e hvar v hS
    | some m => simp at h
  · rw [hS] at h; simp at h

/-- C4 witness: a variable reference against a bare-string record does not
evaluate successfully. -/
theorem evaluate_badshape_witness :
    badShape (.stringA "") = true
      ∧ hasVarRef (.VarRef "x") = true
      ∧ Evaluate msNone (some (.VarRef "x")) (.stringA "") 0 ≠ .ret true none :=
  ⟨rfl, rfl, evaluate_badshape_with_varref_never_succeeds msNone _ _ 0 true rfl rfl⟩

/-- C5: the claim "every other runtime type (e.g. a sequence of integers)
yields an unsupported-argument-type error" is violated: resolving a variable
bound to an `[]int` value takes the `reflect.Slice` branch, whose
`val.([]string)` interface conversion panics instead of returning the
error. -/
theorem resolve_slice_int_panics :
    Evaluate msNone (some (.VarRef "X")) (.mapA [("X", .sliceIntV [1])]) 0 =
      .panicked .interfaceConversion := rfl

/-- C6 counterexample: with a day count of 3/2 and an elapsed time of 100000
seconds the code answers true (the day count is truncated to 1 before the
comparison), while the spec's formula "elapsed exceeds days × 86400 seconds"
is false there (100000 < 129600). -/
theorem applyBefore_fractional_days_truncated :
    applyBefore (.TimeLiteral 0) (.NumberLiteral (3/2)) (100000 * 1000000000) =
        .ret (some true) none
      ∧ ¬ specBeforeHolds 0 (3/2) (100000 * 1000000000) := by
  constructor
  · norm_num [applyBefore, getTime, getNumber, ratTrunc, wrap64, satDur]
    decide
  · unfold specBeforeHolds
    norm_num

/-- C6 amended: for a time left operand and a numeric right operand whose
truncation toward zero is representable in int64 (outside that range the Go
float64 → int64 conversion is implementation-dependent), BEFORE is true iff
the elapsed wall-clock time since the left timestamp — saturated at the
`Duration` bounds as `time.Since` is — strictly exceeds the duration computed
in wrapping int64 arithmetic as (the truncated day count) × 10⁹ ns × 86400;
the boundary comparison is strict greater-than.  For day counts of 106752 and
above the duration wraps negative, making BEFORE true even for a fresh
timestamp. -/
theorem applyBefore_time_number_characterization (t : Int) (days : ℚ) (now : Int)
    (_hrange : -(2 ^ 63) ≤ ratTrunc days ∧ ratTrunc days ≤ 2 ^ 63 - 1) :
    applyBefore (.TimeLiteral t) (.NumberLiteral days) now =
      .ret (some (decide (satDur (now - t) >
        wrap64 (wrap64 (ratTrunc days * 1000000000) * 86400)))) none := by
  simp only [applyBefore, getTime, getNumber]
  by_cases h : satDur (now - t) > wrap64 (wrap64 (ratTrunc days * 1000000000) * 86400) <;>
    simp [h]

/-- C6 witness: a day count of 200000 is in range, and its duration wraps
negative in int64, so BEFORE answers true one nanosecond after the left
timestamp. -/
theorem applyBefore_time_number_witness :
    (-(2 ^ 63) ≤ ratTrunc 200000 ∧ ratTrunc 200000 ≤ 2 ^ 63 - 1)
      ∧ applyBefore (.TimeLiteral 0) (.NumberLiteral 200000) 1 =
          .ret (some (decide (satDur (1 - 0) >
            wrap64 (wrap64 (ratTrunc 200000 * 1000000000) * 86400)))) none
      ∧ applyBefore (.TimeLiteral 0) (.NumberLiteral 200000) 1 = .ret (some true) none := by
  refine ⟨by norm_num [ratTrunc], applyBefore_time_number_characterization 0 200000 1
    (by norm_num [ratTrunc]), ?_⟩
  norm_num [applyBefore, getTime, getNumber, ratTrunc, wrap64, satDur]

/-- C7: a `BinaryExpr` propagates the left operand's evaluation error, and —
since there is no short-circuit — an error in the right operand aborts the
evaluation even when the left operand already reduced successfully (e.g. to
the AND-absorbing false). -/
theorem binaryExpr_no_short_circuit
    (ms : MatchFn) (args : Args) (now : Int) (op : Token) (l r : Expr) :
    (∀ v m, evaluateSubtree ms l args now = .ret v (some m) →
        evaluateSubtree ms (.BinaryExpr op l r) args now = .ret (some falseExpr) (some m))
      ∧ (∀ lv v m, evaluateSubtree ms l args now = .ret lv none →
          evaluateSubtree ms r args now = .ret v (some m) →
          evaluateSubtree ms (.BinaryExpr op l r) args now = .ret (some falseExpr) (some m)) := by
  constructor
  · intro v m h
    simp only [evaluateSubtree, h]
  · intro lv v m hl hr
    simp only [evaluateSubtree, hl, hr]

/-- C7 witness: `false AND $x` against a bare-string record: the left operand
reduces to false, yet the right operand's resolution error aborts the
evaluation instead of yielding `(false, nil)`. -/
theorem binaryExpr_no_short_circuit_witness :
    evaluateSubtree msNone (.BooleanLiteral false) (.stringA "") 0 =
        .ret (some (.BooleanLiteral false)) none
      ∧ evaluateSubtree msNone (.VarRef "x") (.stringA "") 0 =
          .ret (some falseExpr) (some (.argsNotMapOrStruct (.stringA "")))
      ∧ evaluateSubtree msNone (.BinaryExpr .AND (.BooleanLiteral false) (.VarRef "x"))
          (.stringA "") 0 = .ret (some falseExpr) (some (.argsNotMapOrStruct (.stringA ""))) :=
  ⟨rfl, rfl,
    (binaryExpr_no_short_circuit msNone (.stringA "") 0 .AND _ _).2 _ _ _ rfl rfl⟩

/-- C8 counterexample: NEQ on a time literal and a string literal — mismatched
kinds — returns false with a nil error: no trial path engages because the
*left* operand is of none of the trial kinds, refuting "mismatched kinds on
both trial paths yield a cannot-compare error" as a universal statement. -/
theorem applyNQ_time_string_silent_false :
    applyNQ (.TimeLiteral 0) (.StringLiteral "") = .ret (some false) none := rfl

/-- C8 amended: EQ/NEQ check operand kinds in the trial order string, number,
boolean on the left operand: same-kind pairs among the three yield the
equality/inequality; a left operand of a trial kind with a mismatching right
operand yields the corresponding cannot-compare error (the order of the error
clauses exhibits the trial order); a left operand of none of the trial kinds
yields false with a nil error rather than an error. -/
theorem applyEQ_NQ_trial_order :
    (∀ a b : String,
        applyEQ (.StringLiteral a) (.StringLiteral b) = .ret (some (a == b)) none ∧
        applyNQ (.StringLiteral a) (.StringLiteral b) = .ret (some (a != b)) none)
      ∧ (∀ a b : ℚ,
        applyEQ (.NumberLiteral a) (.NumberLiteral b) = .ret (some (a == b)) none ∧
        applyNQ (.NumberLiteral a) (.NumberLiteral b) = .ret (some (a != b)) none)
      ∧ (∀ a b : Bool,
        applyEQ (.BooleanLiteral a) (.BooleanLiteral b) = .ret (some (a == b)) none ∧
        applyNQ (.BooleanLiteral a) (.BooleanLiteral b) = .ret (some (a != b)) none)
      ∧ (∀ l r, isStringLit l = true → isStringLit r = false →
        applyEQ l r = .ret (some false) (some .cannotCompareStringWithNonString) ∧
        applyNQ l r = .ret (some false) (some .cannotCompareStringWithNonString))
      ∧ (∀ l r, isNumberLit l = true → isNumberLit r = false →
        applyEQ l r = .ret (some false) (some .cannotCompareNumberWithNonNumber) ∧
        applyNQ l r = .ret (some false) (some .cannotCompareNumberWithNonNumber))
      ∧ (∀ l r, isBooleanLit l = true → isBooleanLit r = false →
        applyEQ l r = .ret (some false) (some .cannotCompareBooleanWithNonBoolean) ∧
        applyNQ l r = .ret (some false) (some .cannotCompareBooleanWithNonBoolean))
      ∧ (∀ l r, isStringLit l = false → isNumberLit l = false → isBooleanLit l = false →
        applyEQ l r = .ret (some false) none ∧ applyNQ l r = .ret (some false) none) := by
  refine ⟨fun a b => ⟨rfl, rfl⟩, fun a b => ⟨rfl, rfl⟩, fun a b => ⟨rfl, rfl⟩, ?_, ?_, ?_, ?_⟩
  · intro l r h1 h2
    cases l <;> first
      | exact Bool.noConfusion h1
      | cases r <;> first
          | exact Bool.noConfusion h2
          | exact ⟨rfl, rfl⟩
  · intro l r h1 h2
    cases l <;> first
      | exact Bool.noConfusion h1
      | cases r <;> first
          | exact Bool.noConfusion h2
          | exact ⟨rfl, rfl⟩
  · intro l r h1 h2
    cases l <;> first
      | exact Bool.noConfusion h1
      | cases r <;> first
          | exact Bool.noConfusion h2
          | exact ⟨rfl, rfl⟩
  · intro l r h1 h2 h3
    cases l <;> first
      | exact Bool.noConfusion h1
      | exact Bool.noConfusion h2
      | exact Bool.noConfusion h3
      | exact ⟨rfl, rfl⟩

/-- C8 witness: EQ on a time literal and a number literal falls through all
three trial paths and returns false with a nil error. -/
theorem applyEQ_NQ_trial_order_witness :
    applyEQ (.TimeLiteral 5) (.NumberLiteral 2) = .ret (some false) none
      ∧ applyNQ (.TimeLiteral 5) (.NumberLiteral 2) = .ret (some false) none :=
  applyEQ_NQ_trial_order.2.2.2.2.2.2 (.TimeLiteral 5) (.NumberLiteral 2) rfl rfl rfl

/-- C9 counterexample: on boolean operands `applyIN` fails with a nil result
and an error, so the negation of its outcome is that same error outcome — but
`applyNOTIN` panics there instead; the NOTIN law does not hold for all
operand pairs. -/
theorem applyNOTIN_not_negation_on_error :
    applyNOTIN (.BooleanLiteral true) (.BooleanLiteral false)
      ≠ negateRes (applyIN (.BooleanLiteral true) (.BooleanLiteral false)) := by decide

/-- C9 amended: the symmetry laws hold in the defined cases: NOTIN (resp.
NEREG) returns the negation of IN's (resp. EREG's) value, with the same
error, whenever the inner operator returns a non-nil result; NAND is the
outcome-negation of AND for all operand pairs; NEQ is the value-negation of
EQ on all comparable (same trial kind) pairs.  When IN or EREG fail with a
nil result, NOTIN and NEREG panic instead. -/
theorem operator_symmetry_laws :
    (∀ l r b e, applyIN l r = .ret (some b) e → applyNOTIN l r = .ret (some (!b)) e)
      ∧ (∀ (ms : MatchFn) l r b e,
          applyEREG ms l r = .ret (some b) e → applyNEREG ms l r = .ret (some (!b)) e)
      ∧ (∀ l r, applyNAND l r = negateRes (applyAND l r))
      ∧ (∀ l r, comparableSNB l r = true →
          ∃ b, applyEQ l r = .ret (some b) none ∧ applyNQ l r = .ret (some (!b)) none) := by
  refine ⟨?_, ?_, ?_, ?_⟩
  · intro l r b e h
    unfold applyNOTIN
    rw [h]
  · intro ms l r b e h
    unfold applyNEREG
    rw [h]
  · intro l r
    cases l <;> cases r <;> rfl
  · intro l r h
    cases l <;> cases r <;> first
      | exact Bool.noConfusion h
      | exact ⟨_, rfl, rfl⟩

/-- C9 witness: NOTIN on a string found in a string slice is the negation of
the successful IN. -/
theorem operator_symmetry_witness :
    applyNOTIN (.StringLiteral "a") (.SliceStringLiteral ["a", "b"]) =
      .ret (some false) none :=
  operator_symmetry_laws.1 (.StringLiteral "a") (.SliceStringLiteral ["a", "b"]) true none rfl

/-- C10: whenever `Evaluate` returns with a non-nil error, the boolean
returned alongside it is false. -/
theorem evaluate_error_implies_false
    (ms : MatchFn) (expr : Option Expr) (args : Args) (now : Int) (b : Bool) (m : Err)
    (h : Evaluate ms expr args now = .ret b (some m)) : b = false := by
  unfold Evaluate at h
  split at h
  · exact (EvalOut.ret.injEq .. ▸ h).1.symm ▸ rfl
  · split at h
    · exact absurd h (by simp)
    · split at h
      · simp_all
      · split at h <;> simp_all

/-- C10 witness: the nil-expression error comes with a false result. -/
theorem evaluate_error_implies_false_witness :
    Evaluate msNone none (.mapA []) 0 = .ret false (some .providedExpressionNil)
      ∧ (false : Bool) = false :=
  ⟨rfl, evaluate_error_implies_false msNone none (.mapA []) 0 false .providedExpressionNil rfl⟩
